import Mathlib

/-!
Shallow embedding of the TeideDB benchmark harness (`bench_all.py`) and of the
dataset generators (`gen/generate_data.py`, `gen/generate_join.py`).

Modelling conventions:
* durations (fractional milliseconds, Python floats) are modelled as `ℚ`;
* native engine handles (Python ints crossing the FFI) are modelled as `Nat`;
* the adapter's interaction with the opaque native engine is modelled as a
  trace of FFI-call events, parameterised by the handles the engine returns;
* Python's stable ascending `sorted` is modelled by `List.insertionSort (· ≤ ·)`,
  which is likewise a stable ascending sort, hence extensionally equal.
-/

namespace TeideBench

/-- Embeds `median` from `bench_all.py`: `sorted(lst)[len(lst) // 2]`.
The out-of-range access on the empty list (Python `IndexError`) is modelled
by `Option`. -/
def median (lst : List ℚ) : Option ℚ :=
  (List.insertionSort (· ≤ ·) lst)[lst.length / 2]?

/-- Embeds `N_ITER = 7` from `bench_all.py`. -/
def N_ITER : Nat := 7

/-- Embeds `N_ITER_JOIN = 5` from `bench_all.py`. -/
def N_ITER_JOIN : Nat := 5

/-- Embeds `N_WARMUP = 3` from `bench_all.py`. -/
def N_WARMUP : Nat := 3

/-- Rounds a rational to the nearest integer, ties to even, as Python's float
formatting does when producing a fixed number of decimals. -/
def roundHalfEven (q : ℚ) : ℤ :=
  let f : ℤ := ⌊q⌋
  if q - f < 1/2 then f
  else if q - f > 1/2 then f + 1
  else if f % 2 = 0 then f else f + 1

/-- Pads a digit string on the left with zeros up to width `n`. -/
def padZeros (n : Nat) (s : String) : String :=
  if s.length < n then String.mk (List.replicate (n - s.length) '0') ++ s else s

/-- Fixed-point decimal rendering of a rational with `prec` digits after the
point; models Python's `f"{x:.0f}"` / `f"{x:.1f}"` / `f"{x:.2f}"`. -/
def decStr (prec : Nat) (q : ℚ) : String :=
  let n : ℤ := roundHalfEven (q * (10 : ℚ) ^ prec)
  if prec = 0 then toString n
  else
    let m := n.natAbs
    let ip := m / 10 ^ prec
    let fp := m % 10 ^ prec
    (if n < 0 then "-" else "") ++ toString ip ++ "." ++ padZeros prec (toString fp)

/-- Embeds `fmt` from `bench_all.py`: microseconds below 1 ms, one decimal of
milliseconds below 1 s, otherwise two decimals of seconds. -/
def fmt (ms : ℚ) : String :=
  if ms < 1 then decStr 0 (ms * 1000) ++ "us"
  else if ms < 1000 then decStr 1 ms ++ "ms"
  else decStr 2 (ms / 1000) ++ "s"

/-! ### The timing protocol (`run` in `bench_duckdb` / `bench_polars`, and the
measurement loops of `bench_teide`) -/

/-- The warm-up loop: calls the thunk `n` more times, threading the thunk call
counter; nothing is recorded. -/
def warmupLoop : Nat → Nat → Nat
  | k, 0 => k
  | k, n + 1 => warmupLoop (k + 1) n

/-- The measured loop: starting at thunk call number `k`, performs `n` further
calls and records each call's elapsed duration.  `dur j` is the wall time the
thunk takes on its `j`-th call (0-indexed). -/
def timedSamples (dur : Nat → ℚ) : Nat → Nat → List ℚ
  | _, 0 => []
  | k, n + 1 => dur k :: timedSamples dur (k + 1) n

/-- Embeds the measurement protocol of `run`: `n_warmup` untimed calls, then
`n_iter` timed calls, then the median of the recorded samples. -/
def run (dur : Nat → ℚ) (n_warmup n_iter : Nat) : Option ℚ :=
  median (timedSamples dur (warmupLoop 0 n_warmup) n_iter)

/-! ### Engines, query ids, per-call-site iteration counts -/

inductive Engine
  | duckdb
  | polars
  | teide
deriving DecidableEq

inductive QueryId
  | q1 | q2 | q3 | q5 | q7 | s1 | s6 | j1
deriving DecidableEq

inductive QueryKind
  | groupbyK | sortK | joinK
deriving DecidableEq

def queryKind : QueryId → QueryKind
  | .q1 | .q2 | .q3 | .q5 | .q7 => .groupbyK
  | .s1 | .s6 => .sortK
  | .j1 => .joinK

/-- The `n_iter` value in effect at each `run` call site of `bench_duckdb`:
every call omits `n_iter` (default `N_ITER`) except `j1`, which passes
`N_ITER_JOIN`. -/
def duckdbIter : QueryId → Nat
  | .j1 => N_ITER_JOIN
  | _ => N_ITER

/-- The warm-up count at each `bench_duckdb` call site: the `run` helper always
loops `range(N_WARMUP)`. -/
def duckdbWarm : QueryId → Nat := fun _ => N_WARMUP

/-- The `n_iter` value at each call site of `bench_polars`: the `run` helper
defaults to `N_ITER`; the inline join loop uses `N_ITER_JOIN`. -/
def polarsIter : QueryId → Nat
  | .j1 => N_ITER_JOIN
  | _ => N_ITER

/-- The warm-up count at each `bench_polars` call site (`range(N_WARMUP)` both
in the `run` helper and in the inline join loop). -/
def polarsWarm : QueryId → Nat := fun _ => N_WARMUP

/-- The `n_iter` value at each call site of `bench_teide`: `run_groupby` and
`run_sort` default to `N_ITER`; the inline join loop uses `N_ITER_JOIN`. -/
def teideIter : QueryId → Nat
  | .j1 => N_ITER_JOIN
  | _ => N_ITER

/-- The warm-up count at each `bench_teide` call site (`range(N_WARMUP)`
in `run_groupby`, `run_sort` and the inline join loop). -/
def teideWarm : QueryId → Nat := fun _ => N_WARMUP

/-- Recorded-iteration count per engine and query, as read off the call sites. -/
def benchIter : Engine → QueryId → Nat
  | .duckdb => duckdbIter
  | .polars => polarsIter
  | .teide => teideIter

/-- Warm-up count per engine and query, as read off the call sites. -/
def benchWarm : Engine → QueryId → Nat
  | .duckdb => duckdbWarm
  | .polars => polarsWarm
  | .teide => teideWarm

/-! ### Dataset paths and the `__main__` existence check -/

/-- Models `os.path.join(a, b)` for the relative components used here. -/
def pathJoin (a b : String) : String := a ++ "/" ++ b

/-- Embeds `DATASETS = os.path.join(SCRIPT_DIR, "datasets")`; `d` stands for
the runtime `SCRIPT_DIR`. -/
def DATASETS (d : String) : String := pathJoin d "datasets"

/-- Embeds `CSV_GROUPBY`. -/
def CSV_GROUPBY (d : String) : String :=
  pathJoin (pathJoin (DATASETS d) "G1_1e7_1e2_0_0") "G1_1e7_1e2_0_0.csv"

/-- Embeds `CSV_JOIN_X`. -/
def CSV_JOIN_X (d : String) : String :=
  pathJoin (pathJoin (DATASETS d) "h2oai_join_1e7") "J1_1e7_NA_0_0.csv"

/-- Embeds `CSV_JOIN_Y`. -/
def CSV_JOIN_Y (d : String) : String :=
  pathJoin (pathJoin (DATASETS d) "h2oai_join_1e7") "J1_1e7_1e7_0_0.csv"

/-- The list iterated by the `__main__` dataset check, in source order. -/
def datasetPaths (d : String) : List String :=
  [CSV_GROUPBY d, CSV_JOIN_X d, CSV_JOIN_Y d]

/-- Outcome of the `__main__` prologue: either `sys.exit(1)` after printing the
missing path, or proceeding to the engine benchmarks. -/
inductive MainStart
  | exitWith (code : Nat) (reportedPath : String)
  | runEngines
deriving DecidableEq

/-- Which engine benchmark functions get invoked for each prologue outcome:
none when the process exited, all three otherwise. -/
def enginesInvoked : MainStart → List Engine
  | .exitWith _ _ => []
  | .runEngines => [.duckdb, .polars, .teide]

/-- Embeds the `__main__` dataset-existence loop: iterate the three expected
paths in order and `sys.exit(1)` at the first one that does not exist,
reporting that path. -/
def mainDatasetCheck (d : String) (pathExists : String → Bool) : MainStart :=
  match (datasetPaths d).find? (fun p => !(pathExists p)) with
  | some p => .exitWith 1 p
  | none => .runEngines

/-! ### The summary table -/

/-- Embeds the cell expression `fmt(t) if t else 'N/A'`: Python truthiness on
an optional float is false exactly on `None` and on `0.0`. -/
def cellRender (t : Option ℚ) : String :=
  match t with
  | none => "N/A"
  | some v => if v = 0 then "N/A" else fmt v

/-- The engine columns of one summary row, in source order Teide, DuckDB,
Polars. -/
def engineColumns : List Engine := [.teide, .duckdb, .polars]

/-- One summary row: the rendered cell of each engine column for query `key`,
drawn from the accumulated `results` mapping. -/
def summaryRow (results : Engine → String → Option ℚ) (key : String) : List String :=
  engineColumns.map (fun e => cellRender (results e key))

/-- Embeds the `queries` label/key list of the `__main__` summary table. -/
def summaryQueries : List (String × String) :=
  [("q1 — id1, SUM", "q1"),
   ("q2 — id1+id2, SUM", "q2"),
   ("q3 — id3, SUM+AVG", "q3"),
   ("q5 — id6, 3xSUM", "q5"),
   ("q7 — 6-key, SUM+COUNT", "q7"),
   ("sort s1 — id1 ASC", "s1"),
   ("sort s6 — 3-key ASC", "s6"),
   ("join j1 — inner, 3-key", "j1")]

/-! ### The native adapter, as a trace of FFI calls

`bench_teide` talks to the engine only through the `TeideLib` FFI surface.
We model each FFI call as one event carrying its arguments and the handle the
engine returned; the handles the engine chooses are parameters of the model
(`RunResp`, `TeideResp`).  The traces below transcribe, call for call, the
bodies of `run_groupby`, `run_sort` and the join section of `bench_teide`. -/

/-- Opaque engine handle (a Python int crossing the FFI). -/
abbrev Handle := Nat

inductive Event
  | arenaInit
  | symInit
  | readCsv (path : String) (tbl : Handle)
  | tableNrows (tbl : Handle)
  | graphNew (tbl g : Handle)
  | scan (g : Handle) (col : String) (node : Handle)
  | constTable (g tbl node : Handle)
  | constVec (g vec node : Handle)
  | groupNode (g : Handle) (nk na : Nat) (node : Handle)
  | sortNode (g : Handle) (nd : Nat) (node : Handle)
  | joinNode (g node : Handle)
  | symIntern (name : String)
  | tableGetCol (tbl : Handle) (name : String) (vec : Handle)
  | optimize (g rootIn rootOut : Handle)
  | execute (g root res : Handle)
  | release (h : Handle)
  | graphFree (g : Handle)
  | symDestroy
  | arenaDestroyAll
deriving DecidableEq

/-- Embeds the guard `if r and r >= 32` of `bench_all.py`: the result handle is
truthy and at or above the owned-threshold 32. -/
def owned (r : Handle) : Bool := r != 0 && decide (32 ≤ r)

/-- The handles the engine returns during one `run_groupby`/`run_sort`/join
section: the graph handle, the node handle of the `i`-th node-building call,
the root returned by `optimize`, and the result handle of the `k`-th
`execute`. -/
structure RunResp where
  g : Handle
  node : Nat → Handle
  optRoot : Handle
  execRes : Nat → Handle

/-- Events of `[lib.scan(g, c) for c in cols]`, the `i`-th scan returning node
handle `node (base + i)`. -/
def scanEvents (g : Handle) (node : Nat → Handle) : Nat → List String → List Event
  | _, [] => []
  | base, c :: cs => .scan g c (node base) :: scanEvents g node (base + 1) cs

/-- One execute-then-classify step: `r = lib.execute(g, root)` followed by
`lib.release(r)` exactly when `r and r >= 32`. -/
def execBlock (g root r : Handle) : List Event :=
  .execute g root r :: (if owned r then [.release r] else [])

/-- `n` consecutive execute-then-classify steps, the first being execute number
`start` of the section. -/
def execLoop (g root : Handle) (execRes : Nat → Handle) : Nat → Nat → List Event
  | _, 0 => []
  | start, n + 1 => execBlock g root (execRes start) ++ execLoop g root execRes (start + 1) n

/-- The FFI trace of one `run_groupby(label, key_names, agg_ops, agg_col_names,
n_iter)` call: graph creation, scans for keys then aggregation inputs,
`td_group`, one `optimize`, `N_WARMUP` warm-up executes, `n_iter` timed
executes, and the `finally: lib.graph_free(g)`. -/
def run_groupbyTrace (tbl : Handle) (resp : RunResp) (key_names : List String)
    (agg_ops : List Nat) (agg_col_names : List String) (n_iter : Nat) : List Event :=
  let g := resp.g
  let nk := key_names.length
  let na := agg_ops.length
  let groupH := resp.node (nk + agg_col_names.length)
  [.graphNew tbl g]
    ++ scanEvents g resp.node 0 key_names
    ++ scanEvents g resp.node nk agg_col_names
    ++ [.groupNode g nk na groupH, .optimize g groupH resp.optRoot]
    ++ execLoop g resp.optRoot resp.execRes 0 N_WARMUP
    ++ execLoop g resp.optRoot resp.execRes N_WARMUP n_iter
    ++ [.graphFree g]

/-- The FFI trace of one `run_sort(label, col_names, descs, n_iter)` call:
graph creation, `const_table` of the source table, scans for sort keys,
`sort_op`, one `optimize`, the two execute loops, and `graph_free`. -/
def run_sortTrace (tbl : Handle) (resp : RunResp) (col_names : List String)
    (descs : List Nat) (n_iter : Nat) : List Event :=
  let g := resp.g
  let nc := col_names.length
  let sortH := resp.node (1 + nc)
  [.graphNew tbl g, .constTable g tbl (resp.node 0)]
    ++ scanEvents g resp.node 1 col_names
    ++ [.sortNode g descs.length sortH, .optimize g sortH resp.optRoot]
    ++ execLoop g resp.optRoot resp.execRes 0 N_WARMUP
    ++ execLoop g resp.optRoot resp.execRes N_WARMUP n_iter
    ++ [.graphFree g]

/-- The three join key columns of `bench_teide`. -/
def joinKeys : List String := ["id1", "id2", "id3"]

/-- Events of the right-hand-key loop of `bench_teide`: for each key name,
`sym_intern`, `td_table_get_col` on table `y`, and a `const_vec` wrapping of
the borrowed column vector. -/
def rightKeyEvents (g y : Handle) (colVec : String → Handle) (node : Nat → Handle) :
    Nat → List String → List Event
  | _, [] => []
  | base, c :: cs =>
      .symIntern c :: .tableGetCol y c (colVec c) :: .constVec g (colVec c) (node base)
        :: rightKeyEvents g y colVec node (base + 1) cs

/-- The join section of `bench_teide` up to (and excluding) the `finally`
teardown: graph on `x`, `const_table` of `x` and of `y`, scans for the left
keys, borrowed `const_vec` right keys pulled from `y`, the join node, one
`optimize`, `N_WARMUP` warm-up executes and `N_ITER_JOIN` timed executes. -/
def joinSectionBody (x y : Handle) (resp : RunResp) (colVec : String → Handle) :
    List Event :=
  let g := resp.g
  let joinH := resp.node 8
  [.graphNew x g, .constTable g x (resp.node 0), .constTable g y (resp.node 1)]
    ++ scanEvents g resp.node 2 joinKeys
    ++ rightKeyEvents g y colVec resp.node 5 joinKeys
    ++ [.joinNode g joinH, .optimize g joinH resp.optRoot]
    ++ execLoop g resp.optRoot resp.execRes 0 N_WARMUP
    ++ execLoop g resp.optRoot resp.execRes N_WARMUP N_ITER_JOIN

/-- The FFI trace of the join section of `bench_teide`, including the
`finally: lib.graph_free(g)`. -/
def joinSectionTrace (x y : Handle) (resp : RunResp) (colVec : String → Handle) :
    List Event :=
  joinSectionBody x y resp colVec ++ [.graphFree resp.g]

/-- All handles the engine hands back during `bench_teide`: the three loaded
tables, one `RunResp` per query section, and the column vectors looked up on
`y` for the join's right keys. -/
structure TeideResp where
  tbl : Handle
  x : Handle
  y : Handle
  q1 : RunResp
  q2 : RunResp
  q3 : RunResp
  q5 : RunResp
  q7 : RunResp
  s1 : RunResp
  s6 : RunResp
  jn : RunResp
  colVec : String → Handle

/-- The trace of `bench_teide` up to (and excluding) the join graph's
`graph_free`: init calls, CSV loads, the five group-by and two sort sections,
the join CSV loads and the join section body. -/
def bench_teidePre (d : String) (R : TeideResp) : List Event :=
  [.arenaInit, .symInit, .readCsv (CSV_GROUPBY d) R.tbl, .tableNrows R.tbl]
    ++ run_groupbyTrace R.tbl R.q1 ["id1"] [0] ["v1"] N_ITER
    ++ run_groupbyTrace R.tbl R.q2 ["id1", "id2"] [0] ["v1"] N_ITER
    ++ run_groupbyTrace R.tbl R.q3 ["id3"] [0, 1] ["v1", "v3"] N_ITER
    ++ run_groupbyTrace R.tbl R.q5 ["id6"] [0, 0, 0] ["v1", "v2", "v3"] N_ITER
    ++ run_groupbyTrace R.tbl R.q7 ["id1", "id2", "id3", "id4", "id5", "id6"] [0, 2] ["v3", "v1"] N_ITER
    ++ run_sortTrace R.tbl R.s1 ["id1"] [0] N_ITER
    ++ run_sortTrace R.tbl R.s6 ["id1", "id2", "id3"] [0, 0, 0] N_ITER
    ++ [.readCsv (CSV_JOIN_X d) R.x, .readCsv (CSV_JOIN_Y d) R.y]
    ++ joinSectionBody R.x R.y R.jn R.colVec

/-- The full FFI trace of `bench_teide`: everything before the join graph's
teardown, then `graph_free(g)`, `release(y)`, `release(x)`, `release(tbl)`,
`sym_destroy()`, `arena_destroy_all()` in source order. -/
def bench_teideTrace (d : String) (R : TeideResp) : List Event :=
  bench_teidePre d R
    ++ [.graphFree R.jn.g, .release R.y, .release R.x, .release R.tbl,
        .symDestroy, .arenaDestroyAll]

/-! ### Checkers over traces -/

/-- Release-discipline checker.  The second argument is the pending owned
execute result (if any).  The check demands: a release may occur only when it
names the pending result of the immediately preceding execute; every execute,
warm-up included, starts with no result pending (so the previous owned result
was already released); and at `graph_free` and at the end of the trace nothing
is pending. -/
def relCheck : List Event → Option Handle → Bool
  | [], p => p == none
  | .execute _ _ r :: es, p =>
      p == none && relCheck es (if owned r then some r else none)
  | .release h :: es, p => p == some h && relCheck es none
  | .graphFree _ :: es, p => p == none && relCheck es p
  | _ :: es, p => relCheck es p

/-- The handles released in a trace, in order. -/
def releasesOf (tr : List Event) : List Handle :=
  tr.filterMap (fun e => match e with | .release h => some h | _ => none)

/-- The owned execute results of a section with `n_iter` timed iterations:
among the `N_WARMUP + n_iter` execute results, those at or above the owned
threshold. -/
def ownedResults (resp : RunResp) (n_iter : Nat) : List Handle :=
  ((List.range (N_WARMUP + n_iter)).map resp.execRes).filter owned

/-- Optimize-phase checker.  The second argument is `none` while the query is
still being built and `some r` once `optimize` returned root `r`.  The check
demands: node building happens only before `optimize`; `optimize` runs at most
once; every `execute` happens after `optimize` and passes exactly the root
that `optimize` returned. -/
def optCheck : List Event → Option Handle → Bool
  | [], _ => true
  | .optimize _ _ rOut :: es, none => optCheck es (some rOut)
  | .optimize _ _ _ :: _, some _ => false
  | .execute _ root _ :: es, some r => root == r && optCheck es (some r)
  | .execute _ _ _ :: _, none => false
  | .graphNew _ _ :: es, p => p == none && optCheck es p
  | .scan _ _ _ :: es, p => p == none && optCheck es p
  | .constTable _ _ _ :: es, p => p == none && optCheck es p
  | .constVec _ _ _ :: es, p => p == none && optCheck es p
  | .groupNode _ _ _ _ :: es, p => p == none && optCheck es p
  | .sortNode _ _ _ :: es, p => p == none && optCheck es p
  | .joinNode _ _ :: es, p => p == none && optCheck es p
  | .tableGetCol _ _ _ :: es, p => p == none && optCheck es p
  | _ :: es, p => optCheck es p

/-- Counts the `optimize` events of a trace. -/
def optimizeCount (tr : List Event) : Nat :=
  (tr.filter (fun e => match e with | .optimize _ _ _ => true | _ => false)).length

/-- The roots passed to the `execute` events of a trace, in order. -/
def execRoots (tr : List Event) : List Handle :=
  tr.filterMap (fun e => match e with | .execute _ root _ => some root | _ => none)

/-- The owned execute results of the eight query sections of `bench_teide`,
in section order: these are exactly the handles the adapter releases before
the final teardown. -/
def sectionReleases (R : TeideResp) : List Handle :=
  ownedResults R.q1 N_ITER ++ ownedResults R.q2 N_ITER ++ ownedResults R.q3 N_ITER
    ++ ownedResults R.q5 N_ITER ++ ownedResults R.q7 N_ITER
    ++ ownedResults R.s1 N_ITER ++ ownedResults R.s6 N_ITER
    ++ ownedResults R.jn N_ITER_JOIN

/-- Freshness of the three table handles: pairwise distinct and not among the
owned execute results of any section (the engine hands out distinct live
handles, so a result handle never aliases a loaded table). -/
def tablesFresh (R : TeideResp) : Bool :=
  R.x != R.y && R.x != R.tbl && R.y != R.tbl
    && !((sectionReleases R).contains R.x)
    && !((sectionReleases R).contains R.y)
    && !((sectionReleases R).contains R.tbl)

/-! ### Concrete example responses, used by witnesses -/

/-- A concrete engine-response assignment for one query section. -/
def runRespEx : RunResp :=
  { g := 5, node := fun i => 200 + i, optRoot := 250, execRes := fun k => 1000 + k }

/-- A concrete engine-response assignment for a whole `bench_teide` run. -/
def teideRespEx : TeideResp :=
  { tbl := 100, x := 101, y := 102
    q1 := runRespEx, q2 := runRespEx, q3 := runRespEx, q5 := runRespEx
    q7 := runRespEx, s1 := runRespEx, s6 := runRespEx, jn := runRespEx
    colVec := fun _ => 300 }

/-- A concrete thunk-duration assignment: call `k` takes `k + 1` ms (a strictly
increasing counter). -/
def durEx : Nat → ℚ := fun k => (k : ℚ) + 1

/-- A results mapping with no entry recorded anywhere. -/
def noResults : Engine → String → Option ℚ := fun _ _ => none

/-! ### The group-by dataset generator (`gen/generate_data.py`)

The generator draws all randomness from Python's module-global `random` PRNG,
which `generate_h2oai_groupby` reseeds with `random.seed(seed)` before the
first draw.  The PRNG itself (CPython's Mersenne Twister) is external to the
repository, so it is abstracted as a deterministic state machine `PyRandom`:
`seedFn` models `random.seed`, `randbelow` models `random._randbelow(n)` (the
primitive behind `randint` and `choice`), and `random` models
`random.random()`.  Floats are modelled as `ℚ`. -/

/-- Abstract deterministic PRNG with state type `S`, standing for the
module-global `random` instance. -/
structure PyRandom (S : Type) where
  seedFn : Nat → S
  randbelow : S → Nat → Nat × S
  random : S → ℚ × S

/-- Models `random.randint(a, b)`, which CPython implements as
`a + _randbelow(b - a + 1)`. -/
def randintCall {S : Type} (P : PyRandom S) (a b : Int) (st : S) : Int × S :=
  let (r, st') := P.randbelow st (b - a + 1).toNat
  (a + r, st')

/-- Models `random.choice(l)`, which CPython implements as
`l[_randbelow(len(l))]`. -/
def choiceCall {S α : Type} (P : PyRandom S) (l : List α) (dflt : α) (st : S) : α × S :=
  let (i, st') := P.randbelow st l.length
  (l.getD i dflt, st')

/-- Models `random.uniform(a, b)`, which CPython implements as
`a + (b - a) * random()`. -/
def uniformCall {S : Type} (P : PyRandom S) (a b : ℚ) (st : S) : ℚ × S :=
  let (u, st') := P.random st
  (a + (b - a) * u, st')

/-- Models Python's `round(x, 6)` on the rational model of floats: round half
to even at the sixth decimal. -/
def pyRound6 (q : ℚ) : ℚ := (roundHalfEven (q * 1000000) : ℚ) / 1000000

/-- One CSV cell before serialization: a string, an integer, or a float. -/
inductive Cell
  | s (v : String)
  | i (v : Int)
  | q (v : ℚ)
deriving DecidableEq

/-- Models `f"id{i:03d}"`. -/
def fmtId3 (i : Nat) : String := "id" ++ padZeros 3 (toString i)

/-- Models `f"id{i:09d}"`. -/
def fmtId9 (i : Nat) : String := "id" ++ padZeros 9 (toString i)

/-- Models `"" if random.random() < 0.5 else random.choice(vals)` (one
`random()` draw, then a `choice` draw only when the value survives). -/
def naStringCell {S : Type} (P : PyRandom S) (vals : List String) (st : S) :
    String × S :=
  let (u, st') := P.random st
  if u < 1 / 2 then ("", st')
  else choiceCall P vals "" st'

/-- The per-row context: the pre-generated value pools of
`generate_h2oai_groupby` and the NA percentage. -/
structure GroupbyCtx where
  id1_values : List String
  id2_values : List String
  id3_values : List String
  id4_values : List Int
  id5_values : List Int
  id6_values : List Int
  na_pct : Nat

/-- The common tail of both row branches: choices for `id3..id6`,
`randint(1, 5)`, `randint(1, 15)` and `round(uniform(0, 100), 6)`. -/
def rowTail {S : Type} (P : PyRandom S) (ctx : GroupbyCtx) (st : S) :
    List Cell × S :=
  let (c3, st) := choiceCall P ctx.id3_values "" st
  let (c4, st) := choiceCall P ctx.id4_values 0 st
  let (c5, st) := choiceCall P ctx.id5_values 0 st
  let (c6, st) := choiceCall P ctx.id6_values 0 st
  let (v1, st) := randintCall P 1 5 st
  let (v2, st) := randintCall P 1 15 st
  let (v3, st) := uniformCall P 0 100 st
  ([.s c3, .i c4, .i c5, .i c6, .i v1, .i v2, .q (pyRound6 v3)], st)

/-- One data row of `generate_h2oai_groupby`: the NA guard
`na_pct > 0 and random.randint(1, 100) <= na_pct` (short-circuit: no draw when
`na_pct = 0`), then either the NA row (extra `random()` draws for `id1`/`id2`)
or the plain row. -/
def groupbyRow {S : Type} (P : PyRandom S) (ctx : GroupbyCtx) (st : S) :
    List Cell × S :=
  let naBranch : Bool × S :=
    if 0 < ctx.na_pct then
      let (d, st') := randintCall P 1 100 st
      (d ≤ (ctx.na_pct : Int), st')
    else (false, st)
  let (isNA, st) := naBranch
  if isNA then
    let (c1, st) := naStringCell P ctx.id1_values st
    let (c2, st) := naStringCell P ctx.id2_values st
    let (tail, st) := rowTail P ctx st
    (Cell.s c1 :: Cell.s c2 :: tail, st)
  else
    let (c1, st) := choiceCall P ctx.id1_values "" st
    let (c2, st) := choiceCall P ctx.id2_values "" st
    let (tail, st) := rowTail P ctx st
    (Cell.s c1 :: Cell.s c2 :: tail, st)

/-- The row-writing loop: `n` rows, threading the PRNG state.  The Python code
walks the same `n_rows` iterations in batches of 1,000,000 whose boundaries
only drive progress printing, not the written rows. -/
def groupbyRows {S : Type} (P : PyRandom S) (ctx : GroupbyCtx) :
    Nat → S → List (List Cell)
  | 0, _ => []
  | n + 1, st =>
      let (row, st') := groupbyRow P ctx st
      row :: groupbyRows P ctx n st'

/-- The header row written first by `generate_h2oai_groupby`. -/
def groupbyHeader : List Cell :=
  [.s "id1", .s "id2", .s "id3", .s "id4", .s "id5", .s "id6",
   .s "v1", .s "v2", .s "v3"]

/-- Embeds `generate_h2oai_groupby(output_path, n_rows, k, na_pct, seed)` from
`gen/generate_data.py` at the granularity of written CSV rows.  `g0` is the
module-global PRNG state on entry; the function's first action is
`random.seed(seed)`, which replaces it.  The value pools are
`[f"id{i:03d}" for i in range(1, k + 1)]` etc., with
`n_high = max(n_rows // k, k)`. -/
def generate_h2oai_groupby {S : Type} (P : PyRandom S)
    (n_rows k na_pct seed : Nat) (g0 : S) : List (List Cell) :=
  let st := P.seedFn seed
  let n_high := max (n_rows / k) k
  let ctx : GroupbyCtx :=
    { id1_values := (List.range' 1 k).map fmtId3
      id2_values := (List.range' 1 k).map fmtId3
      id3_values := (List.range' 1 n_high).map fmtId9
      id4_values := (List.range' 1 k).map Int.ofNat
      id5_values := (List.range' 1 k).map Int.ofNat
      id6_values := (List.range' 1 n_high).map Int.ofNat
      na_pct := na_pct }
  let _ := g0
  groupbyHeader :: groupbyRows P ctx n_rows st


/-! ## Theorems -/

section Lemmas

/-- A string with a final character `s` is never the marker `"N/A"`. -/
theorem append_ne_NA (w u : String) (h : u.data.getLast? = some 's') :
    w ++ u ≠ "N/A" := by
  intro he
  have hd : w.data ++ u.data = ['N', '/', 'A'] := by
    have h2 := congrArg String.data he
    rwa [String.data_append] at h2
  have hnil : u.data ≠ [] := by
    intro hn
    rw [hn] at h
    exact Option.noConfusion h
  have h1 : (w.data ++ u.data).getLast? = some 's' := by
    rw [List.getLast?_append_of_ne_nil _ hnil]
    exact h
  rw [hd] at h1
  exact absurd h1 (by decide)

/-- The warm-up loop only advances the thunk call counter. -/
theorem warmupLoop_eq (k w : Nat) : warmupLoop k w = k + w := by
  induction w generalizing k with
  | zero => rfl
  | succ w ih =>
      show warmupLoop (k + 1) w = k + (w + 1)
      rw [ih]
      omega

/-- The measured loop records exactly `n` samples. -/
theorem timedSamples_length (dur : Nat → ℚ) (k n : Nat) :
    (timedSamples dur k n).length = n := by
  induction n generalizing k with
  | zero => rfl
  | succ n ih =>
      show (dur k :: timedSamples dur (k + 1) n).length = n + 1
      rw [List.length_cons, ih]

/-- The `i`-th recorded sample is the duration of thunk call `k + i`. -/
theorem timedSamples_getElem (dur : Nat → ℚ) (k n i : Nat) (h : i < n) :
    (timedSamples dur k n)[i]? = some (dur (k + i)) := by
  induction n generalizing k i with
  | zero => omega
  | succ n ih =>
      cases i with
      | zero =>
          show (dur k :: timedSamples dur (k + 1) n)[0]? = some (dur (k + 0))
          simp
      | succ i =>
          have h2 := ih (k + 1) i (by omega)
          show (dur k :: timedSamples dur (k + 1) n)[i + 1]? = some (dur (k + (i + 1)))
          rw [List.getElem?_cons_succ, h2]
          have h3 : k + 1 + i = k + (i + 1) := by omega
          rw [h3]

end Lemmas

/-- C1 counterexample: on the even-length sample `[4, 1, 3, 2]` the harness
median is 3 (the upper of the two sorted middles 2, 3), not the 2 the claim
demands. -/
theorem median_lower_counterexample :
    median [(4 : ℚ), 1, 3, 2] = some 3 ∧ ¬ median [(4 : ℚ), 1, 3, 2] = some 2 := by
  constructor
  · decide
  · decide

/-- C1 (amended): for every non-empty sample list, `median` returns the
element at index `len / 2` of the ascending sorted permutation — the exact
middle when the count is odd, and the UPPER of the two middle elements when
the count is even (the lower middle is `≤` the returned value); in particular
`median [3,1,2] = 2` but `median [4,1,3,2] = 3`. -/
theorem median_sorted_middle (l : List ℚ) (h : l ≠ []) :
    ∃ (s : List ℚ) (m : ℚ), s.Perm l ∧ s.Sorted (· ≤ ·) ∧ median l = some m ∧
      s[l.length / 2]? = some m ∧
      (l.length % 2 = 1 → s[(l.length - 1) / 2]? = some m) ∧
      (l.length % 2 = 0 → ∃ a, s[l.length / 2 - 1]? = some a ∧ a ≤ m) := by
  have hperm := List.perm_insertionSort (· ≤ · : ℚ → ℚ → Prop) l
  have hsort := List.sorted_insertionSort (· ≤ · : ℚ → ℚ → Prop) l
  have hlen : (List.insertionSort (· ≤ ·) l).length = l.length := hperm.length_eq
  have hpos : 0 < l.length := List.length_pos.mpr h
  have hidx : l.length / 2 < (List.insertionSort (· ≤ ·) l).length := by
    rw [hlen]
    exact Nat.div_lt_self hpos (by norm_num)
  refine ⟨List.insertionSort (· ≤ ·) l,
    (List.insertionSort (· ≤ ·) l).get ⟨l.length / 2, hidx⟩,
    hperm, hsort, ?_, ?_, ?_, ?_⟩
  · show (List.insertionSort (· ≤ ·) l)[l.length / 2]? = _
    rw [List.getElem?_eq_getElem hidx]
    simp [List.get_eq_getElem]
  · rw [List.getElem?_eq_getElem hidx]
    simp [List.get_eq_getElem]
  · intro hodd
    have heq : (l.length - 1) / 2 = l.length / 2 := by omega
    rw [heq, List.getElem?_eq_getElem hidx]
    simp [List.get_eq_getElem]
  · intro heven
    have hidx2 : l.length / 2 - 1 < (List.insertionSort (· ≤ ·) l).length := by
      rw [hlen]
      omega
    refine ⟨(List.insertionSort (· ≤ ·) l).get ⟨l.length / 2 - 1, hidx2⟩, ?_, ?_⟩
    · rw [List.getElem?_eq_getElem hidx2]
      simp [List.get_eq_getElem]
    · exact hsort.rel_get_of_lt (by simp [Fin.lt_def]; omega)

/-- C1 witness: the amended statement at the odd-length input `[3, 1, 2]`. -/
theorem median_sorted_middle_witness :
    ∃ (s : List ℚ) (m : ℚ), s.Perm [(3 : ℚ), 1, 2] ∧ s.Sorted (· ≤ ·) ∧
      median [(3 : ℚ), 1, 2] = some m ∧
      s[(List.length [(3 : ℚ), 1, 2]) / 2]? = some m ∧
      ((List.length [(3 : ℚ), 1, 2]) % 2 = 1 →
        s[((List.length [(3 : ℚ), 1, 2]) - 1) / 2]? = some m) ∧
      ((List.length [(3 : ℚ), 1, 2]) % 2 = 0 →
        ∃ a, s[(List.length [(3 : ℚ), 1, 2]) / 2 - 1]? = some a ∧ a ≤ m) :=
  median_sorted_middle [(3 : ℚ), 1, 2] (by decide)

/-- C2: the protocol performs `n_warmup` untimed calls, then records exactly
`n_iter` samples, the `i`-th being the duration of call `n_warmup + i`; the
median is computed over the recorded samples only.  With `n_warmup = 3`,
`n_iter = 1` the reported value is the 4th call's duration, and for the
strictly increasing example thunk it is 4 ms — not the 2.5 ms mean of calls
1–4. -/
theorem run_warmup_excluded (dur : Nat → ℚ) (w n i : Nat) :
    warmupLoop 0 w = w ∧
    (timedSamples dur w n).length = n ∧
    (i < n → (timedSamples dur w n)[i]? = some (dur (w + i))) ∧
    run dur 3 1 = some (dur 3) ∧
    run durEx 3 1 = some 4 ∧
    (4 : ℚ) ≠ (durEx 0 + durEx 1 + durEx 2 + durEx 3) / 4 := by
  refine ⟨by simpa using warmupLoop_eq 0 w, timedSamples_length dur w n,
    fun h => timedSamples_getElem dur w n i h, ?_, ?_, ?_⟩
  · show median (timedSamples dur (warmupLoop 0 3) 1) = some (dur 3)
    norm_num [warmupLoop, timedSamples, median, List.insertionSort,
      List.orderedInsert]
  · show median (timedSamples durEx (warmupLoop 0 3) 1) = some 4
    norm_num [durEx, warmupLoop, timedSamples, median, List.insertionSort,
      List.orderedInsert]
  · norm_num [durEx]

/-- C2 witness: the protocol statement at the concrete increasing thunk,
`n_warmup = 2`, `n_iter = 3`, sample index 1. -/
theorem run_warmup_excluded_witness :
    warmupLoop 0 2 = 2 ∧
    (timedSamples durEx 2 3).length = 3 ∧
    (timedSamples durEx 2 3)[1]? = some (durEx (2 + 1)) ∧
    run durEx 3 1 = some (durEx 3) ∧
    run durEx 3 1 = some 4 ∧
    (4 : ℚ) ≠ (durEx 0 + durEx 1 + durEx 2 + durEx 3) / 4 := by
  obtain ⟨a, b, c, d, e, f⟩ := run_warmup_excluded durEx 2 3 1
  exact ⟨a, b, c (by decide), d, e, f⟩

/-- C6: at every call site of every engine, group-by and sort queries run with
7 recorded iterations and 3 warm-ups, and the join query with 5 recorded
iterations and 3 warm-ups. -/
theorem iteration_counts (e : Engine) (q : QueryId) :
    N_ITER = 7 ∧ N_ITER_JOIN = 5 ∧ N_WARMUP = 3 ∧
    (queryKind q = .groupbyK ∨ queryKind q = .sortK →
      benchIter e q = 7 ∧ benchWarm e q = 3) ∧
    (queryKind q = .joinK → benchIter e q = 5 ∧ benchWarm e q = 3) := by
  cases e <;> cases q <;> decide

/-- C6 witness: the counts at a group-by call site and at the join call
site. -/
theorem iteration_counts_witness :
    (benchIter Engine.duckdb QueryId.q1 = 7 ∧ benchWarm Engine.duckdb QueryId.q1 = 3) ∧
    (benchIter Engine.teide QueryId.j1 = 5 ∧ benchWarm Engine.teide QueryId.j1 = 3) :=
  ⟨(iteration_counts Engine.duckdb QueryId.q1).2.2.2.1 (Or.inl rfl),
   (iteration_counts Engine.teide QueryId.j1).2.2.2.2 rfl⟩

/-- C7: when any expected dataset CSV is missing, the `__main__` prologue
exits with status 1 — a non-zero code — reporting one of the expected paths
(a missing one), and no engine benchmark function is invoked. -/
theorem main_missing_dataset (d : String) (pathExists : String → Bool)
    (h : ∃ p ∈ datasetPaths d, pathExists p = false) :
    ∃ p, mainDatasetCheck d pathExists = .exitWith 1 p ∧ p ∈ datasetPaths d ∧
      pathExists p = false ∧ (1 : Nat) ≠ 0 ∧
      enginesInvoked (mainDatasetCheck d pathExists) = [] := by
  obtain ⟨p0, hmem, hfalse⟩ := h
  have hsome : ((datasetPaths d).find? (fun p => !(pathExists p))).isSome := by
    rw [List.find?_isSome]
    exact ⟨p0, hmem, by simp [hfalse]⟩
  obtain ⟨q, hq⟩ := Option.isSome_iff_exists.mp hsome
  have hqfalse : pathExists q = false := by
    have := List.find?_some hq
    simpa using this
  have hqmem : q ∈ datasetPaths d := List.mem_of_find?_eq_some hq
  refine ⟨q, ?_, hqmem, hqfalse, by decide, ?_⟩
  · simp [mainDatasetCheck, hq]
  · simp [mainDatasetCheck, hq, enginesInvoked]

/-- C7 witness: with no dataset present, the prologue exits with code 1 and
invokes no engine. -/
theorem main_missing_dataset_witness :
    ∃ p, mainDatasetCheck "" (fun _ => false) = .exitWith 1 p ∧
      p ∈ datasetPaths "" ∧ (fun _ => false) p = false ∧ (1 : Nat) ≠ 0 ∧
      enginesInvoked (mainDatasetCheck "" (fun _ => false)) = [] :=
  main_missing_dataset "" (fun _ => false)
    ⟨CSV_GROUPBY "", by simp [datasetPaths], rfl⟩

/-- C8: a missing (engine, query) entry renders as the marker `"N/A"` —
distinguishable from a zero or empty rendering — in that engine's column of
the query's summary row, and row rendering is total (no crash). -/
theorem summary_missing_entry (results : Engine → String → Option ℚ) (e : Engine)
    (lk : String × String) (_hq : lk ∈ summaryQueries)
    (h : results e lk.2 = none) :
    cellRender (results e lk.2) = "N/A" ∧ ("N/A" : String) ≠ "0" ∧
    ("N/A" : String) ≠ "" ∧
    cellRender (results e lk.2) ∈ summaryRow results lk.2 := by
  refine ⟨by rw [h]; rfl, by decide, by decide, ?_⟩
  have he : e ∈ engineColumns := by cases e <;> simp [engineColumns]
  exact List.mem_map.mpr ⟨e, he, rfl⟩

/-- C8 witness: the `q1` row with nothing recorded, Teide column. -/
theorem summary_missing_entry_witness :
    cellRender (noResults Engine.teide ("q1 — id1, SUM", "q1").2) = "N/A" ∧
    ("N/A" : String) ≠ "0" ∧ ("N/A" : String) ≠ "" ∧
    cellRender (noResults Engine.teide ("q1 — id1, SUM", "q1").2)
      ∈ summaryRow noResults ("q1 — id1, SUM", "q1").2 :=
  summary_missing_entry noResults Engine.teide ("q1 — id1, SUM", "q1")
    (by decide) rfl

/-- C9: group-by dataset generation is deterministic — the generated rows are
a function of row count, cardinality, NA percentage and seed alone, and in
particular do not depend on the PRNG state `g0`/`g1` that the module-global
`random` held before the call, because `random.seed(seed)` replaces it before
the first draw.  Byte-identical CSV output follows since the CSV writer is a
pure function of the rows. -/
theorem generator_deterministic {S : Type} (P : PyRandom S)
    (n_rows k na_pct seed : Nat) (g0 g1 : S) :
    generate_h2oai_groupby P n_rows k na_pct seed g0 =
      generate_h2oai_groupby P n_rows k na_pct seed g1 := rfl

/-- C10: the summary cell is chosen by Python truthiness of the stored float,
so a recorded median of exactly 0.0 ms renders as `"N/A"`, indistinguishable
from a never-recorded entry, while any strictly positive median renders as its
`fmt` duration, which is never the `"N/A"` marker. -/
theorem table_zero_median_na (v : ℚ) :
    cellRender (some 0) = "N/A" ∧ cellRender none = "N/A" ∧
    (0 < v → cellRender (some v) = fmt v ∧ fmt v ≠ "N/A") := by
  refine ⟨rfl, rfl, fun hv => ⟨?_, ?_⟩⟩
  · simp [cellRender, hv.ne']
  · unfold fmt
    split
    · exact append_ne_NA _ "us" (by decide)
    · split
      · exact append_ne_NA _ "ms" (by decide)
      · exact append_ne_NA _ "s" (by decide)

/-- C10 witness: the truthiness statement with the positive clause discharged
at 1 ms. -/
theorem table_zero_median_na_witness :
    cellRender (some 0) = "N/A" ∧ cellRender none = "N/A" ∧
    (cellRender (some 1) = fmt 1 ∧ fmt 1 ≠ "N/A") := by
  obtain ⟨a, b, c⟩ := table_zero_median_na 1
  exact ⟨a, b, c (by decide)⟩

section TraceLemmas

/-- Scan events neither execute nor release: the release checker passes
through them. -/
theorem relCheck_scanEvents (g : Handle) (node : Nat → Handle) (cols : List String)
    (base : Nat) (rest : List Event) (p : Option Handle) :
    relCheck (scanEvents g node base cols ++ rest) p = relCheck rest p := by
  induction cols generalizing base with
  | nil => rfl
  | cons c cs ih => exact ih (base + 1)

/-- Right-key construction events neither execute nor release. -/
theorem relCheck_rightKeyEvents (g y : Handle) (cv : String → Handle)
    (node : Nat → Handle) (cols : List String) (base : Nat) (rest : List Event)
    (p : Option Handle) :
    relCheck (rightKeyEvents g y cv node base cols ++ rest) p = relCheck rest p := by
  induction cols generalizing base with
  | nil => rfl
  | cons c cs ih => exact ih (base + 1)

/-- Every execute-then-classify loop satisfies the release discipline and
leaves nothing pending. -/
theorem relCheck_execLoop (g root : Handle) (er : Nat → Handle) (s n : Nat)
    (rest : List Event) :
    relCheck (execLoop g root er s n ++ rest) none = relCheck rest none := by
  induction n generalizing s with
  | zero => rfl
  | succ n ih =>
      cases h : owned (er s) with
      | false => simp [execLoop, execBlock, h, relCheck, ih]
      | true => simp [execLoop, execBlock, h, relCheck, ih]

/-- The optimize-phase checker passes scan events while still building. -/
theorem optCheck_scanEvents (g : Handle) (node : Nat → Handle) (cols : List String)
    (base : Nat) (rest : List Event) :
    optCheck (scanEvents g node base cols ++ rest) none = optCheck rest none := by
  induction cols generalizing base with
  | nil => rfl
  | cons c cs ih => simp [scanEvents, optCheck, ih]

/-- The optimize-phase checker passes right-key events while still building. -/
theorem optCheck_rightKeyEvents (g y : Handle) (cv : String → Handle)
    (node : Nat → Handle) (cols : List String) (base : Nat) (rest : List Event) :
    optCheck (rightKeyEvents g y cv node base cols ++ rest) none = optCheck rest none := by
  induction cols generalizing base with
  | nil => rfl
  | cons c cs ih => simp [rightKeyEvents, optCheck, ih]

/-- After `optimize` returned `root`, an execute-then-classify loop that passes
exactly `root` satisfies the phase checker. -/
theorem optCheck_execLoop (g root : Handle) (er : Nat → Handle) (s n : Nat)
    (rest : List Event) :
    optCheck (execLoop g root er s n ++ rest) (some root) =
      optCheck rest (some root) := by
  induction n generalizing s with
  | zero => rfl
  | succ n ih =>
      cases h : owned (er s) with
      | false => simp [execLoop, execBlock, h, optCheck, ih]
      | true => simp [execLoop, execBlock, h, optCheck, ih]

/-- Releases distribute over appended traces. -/
theorem releasesOf_append (a b : List Event) :
    releasesOf (a ++ b) = releasesOf a ++ releasesOf b :=
  List.filterMap_append a b _

/-- Execute roots distribute over appended traces. -/
theorem execRoots_append (a b : List Event) :
    execRoots (a ++ b) = execRoots a ++ execRoots b :=
  List.filterMap_append a b _

/-- Counting optimize events distributes over appended traces. -/
theorem optimizeCount_append (a b : List Event) :
    optimizeCount (a ++ b) = optimizeCount a + optimizeCount b := by
  unfold optimizeCount
  rw [List.filter_append, List.length_append]

/-- Scan events release nothing. -/
theorem releasesOf_scanEvents (g : Handle) (node : Nat → Handle)
    (cols : List String) (base : Nat) :
    releasesOf (scanEvents g node base cols) = [] := by
  induction cols generalizing base with
  | nil => rfl
  | cons c cs ih =>
      show releasesOf (scanEvents g node (base + 1) cs) = []
      exact ih (base + 1)

/-- Right-key construction events release nothing. -/
theorem releasesOf_rightKeyEvents (g y : Handle) (cv : String → Handle)
    (node : Nat → Handle) (cols : List String) (base : Nat) :
    releasesOf (rightKeyEvents g y cv node base cols) = [] := by
  induction cols generalizing base with
  | nil => rfl
  | cons c cs ih =>
      show releasesOf (rightKeyEvents g y cv node (base + 1) cs) = []
      exact ih (base + 1)

/-- The releases of one execute-then-classify step are its owned result or
nothing. -/
theorem releasesOf_execBlock (g root r : Handle) :
    releasesOf (execBlock g root r) = if owned r then [r] else [] := by
  cases h : owned r with
  | false =>
      unfold execBlock
      rw [h]
      rfl
  | true =>
      unfold execBlock
      rw [h]
      rfl

/-- The releases of an execute-then-classify loop are exactly its owned
execute results, in order. -/
theorem releasesOf_execLoop (g root : Handle) (er : Nat → Handle) (s n : Nat) :
    releasesOf (execLoop g root er s n) = ((List.range' s n).map er).filter owned := by
  induction n generalizing s with
  | zero => rfl
  | succ n ih =>
      show releasesOf (execBlock g root (er s) ++ execLoop g root er (s + 1) n) = _
      rw [releasesOf_append, releasesOf_execBlock, ih,
        show List.range' s (n + 1) = s :: List.range' (s + 1) n from rfl]
      rw [List.map_cons, List.filter_cons]
      cases h : owned (er s) with
      | false => simp [h]
      | true => simp [h]

/-- Scan events contain no execute. -/
theorem execRoots_scanEvents (g : Handle) (node : Nat → Handle)
    (cols : List String) (base : Nat) :
    execRoots (scanEvents g node base cols) = [] := by
  induction cols generalizing base with
  | nil => rfl
  | cons c cs ih =>
      show execRoots (scanEvents g node (base + 1) cs) = []
      exact ih (base + 1)

/-- Right-key construction events contain no execute. -/
theorem execRoots_rightKeyEvents (g y : Handle) (cv : String → Handle)
    (node : Nat → Handle) (cols : List String) (base : Nat) :
    execRoots (rightKeyEvents g y cv node base cols) = [] := by
  induction cols generalizing base with
  | nil => rfl
  | cons c cs ih =>
      show execRoots (rightKeyEvents g y cv node (base + 1) cs) = []
      exact ih (base + 1)

/-- One execute-then-classify step passes `root` exactly once. -/
theorem execRoots_execBlock (g root r : Handle) :
    execRoots (execBlock g root r) = [root] := by
  cases h : owned r with
  | false =>
      unfold execBlock
      rw [h]
      rfl
  | true =>
      unfold execBlock
      rw [h]
      rfl

/-- Every execute of an execute-then-classify loop passes the same root. -/
theorem execRoots_execLoop (g root : Handle) (er : Nat → Handle) (s n : Nat) :
    execRoots (execLoop g root er s n) = List.replicate n root := by
  induction n generalizing s with
  | zero => rfl
  | succ n ih =>
      show execRoots (execBlock g root (er s) ++ execLoop g root er (s + 1) n) = _
      rw [execRoots_append, execRoots_execBlock, ih]
      rfl

/-- Scan events contain no optimize. -/
theorem optimizeCount_scanEvents (g : Handle) (node : Nat → Handle)
    (cols : List String) (base : Nat) :
    optimizeCount (scanEvents g node base cols) = 0 := by
  induction cols generalizing base with
  | nil => rfl
  | cons c cs ih =>
      show optimizeCount (scanEvents g node (base + 1) cs) = 0
      exact ih (base + 1)

/-- Right-key construction events contain no optimize. -/
theorem optimizeCount_rightKeyEvents (g y : Handle) (cv : String → Handle)
    (node : Nat → Handle) (cols : List String) (base : Nat) :
    optimizeCount (rightKeyEvents g y cv node base cols) = 0 := by
  induction cols generalizing base with
  | nil => rfl
  | cons c cs ih =>
      show optimizeCount (rightKeyEvents g y cv node (base + 1) cs) = 0
      exact ih (base + 1)

/-- One execute-then-classify step contains no optimize. -/
theorem optimizeCount_execBlock (g root r : Handle) :
    optimizeCount (execBlock g root r) = 0 := by
  cases h : owned r with
  | false =>
      unfold execBlock
      rw [h]
      rfl
  | true =>
      unfold execBlock
      rw [h]
      rfl

/-- An execute-then-classify loop contains no optimize. -/
theorem optimizeCount_execLoop (g root : Handle) (er : Nat → Handle) (s n : Nat) :
    optimizeCount (execLoop g root er s n) = 0 := by
  induction n generalizing s with
  | zero => rfl
  | succ n ih =>
      show optimizeCount (execBlock g root (er s) ++ execLoop g root er (s + 1) n) = 0
      rw [optimizeCount_append, optimizeCount_execBlock, ih]

/-- The release checker passes a `graph_new` event. -/
theorem relCheck_cons_graphNew (t g : Handle) (es : List Event) (p : Option Handle) :
    relCheck (.graphNew t g :: es) p = relCheck es p := rfl

/-- The release checker passes a `const_table` event. -/
theorem relCheck_cons_constTable (g t nd : Handle) (es : List Event) (p : Option Handle) :
    relCheck (.constTable g t nd :: es) p = relCheck es p := rfl

/-- The release checker passes a `td_group` event. -/
theorem relCheck_cons_groupNode (g : Handle) (nk na : Nat) (nd : Handle)
    (es : List Event) (p : Option Handle) :
    relCheck (.groupNode g nk na nd :: es) p = relCheck es p := rfl

/-- The release checker passes a `sort_op` event. -/
theorem relCheck_cons_sortNode (g : Handle) (nd : Nat) (node : Handle)
    (es : List Event) (p : Option Handle) :
    relCheck (.sortNode g nd node :: es) p = relCheck es p := rfl

/-- The release checker passes a `join` event. -/
theorem relCheck_cons_joinNode (g nd : Handle) (es : List Event) (p : Option Handle) :
    relCheck (.joinNode g nd :: es) p = relCheck es p := rfl

/-- The release checker passes an `optimize` event. -/
theorem relCheck_cons_optimize (g a b : Handle) (es : List Event) (p : Option Handle) :
    relCheck (.optimize g a b :: es) p = relCheck es p := rfl

/-- A final `graph_free` with nothing pending satisfies the release checker. -/
theorem relCheck_graphFree_final (g : Handle) :
    relCheck [Event.graphFree g] none = true := rfl

/-- The phase checker passes a `graph_new` event while building. -/
theorem optCheck_cons_graphNew (t g : Handle) (es : List Event) :
    optCheck (.graphNew t g :: es) none = optCheck es none := rfl

/-- The phase checker passes a `const_table` event while building. -/
theorem optCheck_cons_constTable (g t nd : Handle) (es : List Event) :
    optCheck (.constTable g t nd :: es) none = optCheck es none := rfl

/-- The phase checker passes a `td_group` event while building. -/
theorem optCheck_cons_groupNode (g : Handle) (nk na : Nat) (nd : Handle)
    (es : List Event) :
    optCheck (.groupNode g nk na nd :: es) none = optCheck es none := rfl

/-- The phase checker passes a `sort_op` event while building. -/
theorem optCheck_cons_sortNode (g : Handle) (nd : Nat) (node : Handle)
    (es : List Event) :
    optCheck (.sortNode g nd node :: es) none = optCheck es none := rfl

/-- The phase checker passes a `join` event while building. -/
theorem optCheck_cons_joinNode (g nd : Handle) (es : List Event) :
    optCheck (.joinNode g nd :: es) none = optCheck es none := rfl

/-- The phase checker records the root returned by `optimize`. -/
theorem optCheck_cons_optimize (g a b : Handle) (es : List Event) :
    optCheck (.optimize g a b :: es) none = optCheck es (some b) := rfl

/-- A final `graph_free` satisfies the phase checker. -/
theorem optCheck_graphFree_final (g : Handle) (p : Option Handle) :
    optCheck [Event.graphFree g] p = true := rfl

/-- The warm-up and timed execute loops together release exactly the owned
results of the `N_WARMUP + m` executes. -/
theorem filter_owned_loops (er : Nat → Handle) (m : Nat) :
    ((List.range' 0 N_WARMUP).map er).filter owned
        ++ ((List.range' N_WARMUP m).map er).filter owned
      = ((List.range (N_WARMUP + m)).map er).filter owned := by
  rw [← List.filter_append, ← List.map_append]
  have hr : List.range' 0 N_WARMUP ++ List.range' N_WARMUP m
      = List.range (N_WARMUP + m) := by
    have := List.range'_append 0 N_WARMUP m 1
    simpa [List.range_eq_range', Nat.add_comm] using this
  rw [hr]

/-- The releases of one `run_groupby` section are exactly its owned execute
results. -/
theorem releasesOf_run_groupbyTrace (tbl : Handle) (resp : RunResp)
    (keys : List String) (ops : List Nat) (aggs : List String) (n : Nat) :
    releasesOf (run_groupbyTrace tbl resp keys ops aggs n) = ownedResults resp n := by
  simp only [run_groupbyTrace, releasesOf_append, releasesOf_scanEvents,
    releasesOf_execLoop]
  simp [releasesOf]
  rw [filter_owned_loops]
  rfl

/-- The releases of one `run_sort` section are exactly its owned execute
results. -/
theorem releasesOf_run_sortTrace (tbl : Handle) (resp : RunResp)
    (keys : List String) (descs : List Nat) (n : Nat) :
    releasesOf (run_sortTrace tbl resp keys descs n) = ownedResults resp n := by
  simp only [run_sortTrace, releasesOf_append, releasesOf_scanEvents,
    releasesOf_execLoop]
  simp [releasesOf]
  rw [filter_owned_loops]
  rfl

/-- The releases of the join section body are exactly its owned execute
results. -/
theorem releasesOf_joinSectionBody (x y : Handle) (resp : RunResp)
    (cv : String → Handle) :
    releasesOf (joinSectionBody x y resp cv) = ownedResults resp N_ITER_JOIN := by
  simp only [joinSectionBody, releasesOf_append, releasesOf_scanEvents,
    releasesOf_rightKeyEvents, releasesOf_execLoop]
  simp [releasesOf]
  rw [filter_owned_loops]
  rfl

/-- The releases of the full join section are those of its body; `graph_free`
releases nothing. -/
theorem releasesOf_joinSectionTrace (x y : Handle) (resp : RunResp)
    (cv : String → Handle) :
    releasesOf (joinSectionTrace x y resp cv) = ownedResults resp N_ITER_JOIN := by
  rw [joinSectionTrace, releasesOf_append, releasesOf_joinSectionBody]
  simp [releasesOf]

/-- The releases of everything `bench_teide` does before the join graph's
teardown are exactly the eight sections' owned execute results. -/
theorem releasesOf_bench_teidePre (d : String) (R : TeideResp) :
    releasesOf (bench_teidePre d R) = sectionReleases R := by
  simp only [bench_teidePre, releasesOf_append, releasesOf_run_groupbyTrace,
    releasesOf_run_sortTrace, releasesOf_joinSectionBody]
  simp [releasesOf, sectionReleases]

/-- Each `run_groupby` section ends by freeing its graph. -/
theorem graphFree_mem_run_groupbyTrace (tbl : Handle) (resp : RunResp)
    (keys : List String) (ops : List Nat) (aggs : List String) (n : Nat) :
    Event.graphFree resp.g ∈ run_groupbyTrace tbl resp keys ops aggs n := by
  simp [run_groupbyTrace]

/-- Each `run_sort` section ends by freeing its graph. -/
theorem graphFree_mem_run_sortTrace (tbl : Handle) (resp : RunResp)
    (keys : List String) (descs : List Nat) (n : Nat) :
    Event.graphFree resp.g ∈ run_sortTrace tbl resp keys descs n := by
  simp [run_sortTrace]

end TraceLemmas

/-- C3: in every query section of the native adapter — group-by, sort and
join alike — each `execute` whose result is truthy and at or above the
owned-threshold 32 is followed by exactly one `release` of that handle before
the next `execute` and before `graph_free` (warm-up executes included); the
handles released are exactly the owned execute results; and every released
handle is nonzero and at or above 32, so sentinel-range results are never
released. -/
theorem native_release_discipline (tbl x y : Handle) (resp : RunResp)
    (cv : String → Handle) (keys aggs : List String) (ops descs : List Nat)
    (n : Nat) :
    relCheck (run_groupbyTrace tbl resp keys ops aggs n) none = true ∧
    relCheck (run_sortTrace tbl resp keys descs n) none = true ∧
    relCheck (joinSectionTrace x y resp cv) none = true ∧
    releasesOf (run_groupbyTrace tbl resp keys ops aggs n) = ownedResults resp n ∧
    releasesOf (run_sortTrace tbl resp keys descs n) = ownedResults resp n ∧
    releasesOf (joinSectionTrace x y resp cv) = ownedResults resp N_ITER_JOIN ∧
    (ownedResults resp n).all owned = true := by
  refine ⟨?_, ?_, ?_, ?_, ?_, ?_, ?_⟩
  · simp only [run_groupbyTrace, List.append_assoc, List.cons_append,
      List.singleton_append, List.nil_append]
    rw [relCheck_cons_graphNew, relCheck_scanEvents, relCheck_scanEvents,
      relCheck_cons_groupNode, relCheck_cons_optimize, relCheck_execLoop,
      relCheck_execLoop, relCheck_graphFree_final]
  · simp only [run_sortTrace, List.append_assoc, List.cons_append,
      List.singleton_append, List.nil_append]
    rw [relCheck_cons_graphNew, relCheck_cons_constTable, relCheck_scanEvents,
      relCheck_cons_sortNode, relCheck_cons_optimize, relCheck_execLoop,
      relCheck_execLoop, relCheck_graphFree_final]
  · simp only [joinSectionTrace, joinSectionBody, List.append_assoc,
      List.cons_append, List.singleton_append, List.nil_append]
    rw [relCheck_cons_graphNew, relCheck_cons_constTable, relCheck_cons_constTable,
      relCheck_scanEvents, relCheck_rightKeyEvents, relCheck_cons_joinNode,
      relCheck_cons_optimize, relCheck_execLoop, relCheck_execLoop,
      relCheck_graphFree_final]
  · exact releasesOf_run_groupbyTrace tbl resp keys ops aggs n
  · exact releasesOf_run_sortTrace tbl resp keys descs n
  · exact releasesOf_joinSectionTrace x y resp cv
  · rw [List.all_eq_true]
    intro h hmem
    exact (List.mem_filter.mp hmem).2

/-- C4: in every query section of the native adapter, all node building
precedes the single `optimize` call, `optimize` runs exactly once — before the
first warm-up execute — and every one of the `N_WARMUP + n_iter` executes
passes exactly the root that `optimize` returned; nothing is rebuilt or
re-optimized between iterations. -/
theorem native_optimize_once (tbl x y : Handle) (resp : RunResp)
    (cv : String → Handle) (keys aggs : List String) (ops descs : List Nat)
    (n : Nat) :
    (optCheck (run_groupbyTrace tbl resp keys ops aggs n) none = true ∧
     optimizeCount (run_groupbyTrace tbl resp keys ops aggs n) = 1 ∧
     execRoots (run_groupbyTrace tbl resp keys ops aggs n) =
       List.replicate (N_WARMUP + n) resp.optRoot) ∧
    (optCheck (run_sortTrace tbl resp keys descs n) none = true ∧
     optimizeCount (run_sortTrace tbl resp keys descs n) = 1 ∧
     execRoots (run_sortTrace tbl resp keys descs n) =
       List.replicate (N_WARMUP + n) resp.optRoot) ∧
    (optCheck (joinSectionTrace x y resp cv) none = true ∧
     optimizeCount (joinSectionTrace x y resp cv) = 1 ∧
     execRoots (joinSectionTrace x y resp cv) =
       List.replicate (N_WARMUP + N_ITER_JOIN) resp.optRoot) := by
  refine ⟨⟨?_, ?_, ?_⟩, ⟨?_, ?_, ?_⟩, ⟨?_, ?_, ?_⟩⟩
  · simp only [run_groupbyTrace, List.append_assoc, List.cons_append,
      List.singleton_append, List.nil_append]
    rw [optCheck_cons_graphNew, optCheck_scanEvents, optCheck_scanEvents,
      optCheck_cons_groupNode, optCheck_cons_optimize, optCheck_execLoop,
      optCheck_execLoop, optCheck_graphFree_final]
  · simp only [run_groupbyTrace, optimizeCount_append, optimizeCount_scanEvents,
      optimizeCount_execLoop]
    simp [optimizeCount]
  · simp only [run_groupbyTrace, execRoots_append, execRoots_scanEvents,
      execRoots_execLoop]
    simp [execRoots]
  · simp only [run_sortTrace, List.append_assoc, List.cons_append,
      List.singleton_append, List.nil_append]
    rw [optCheck_cons_graphNew, optCheck_cons_constTable, optCheck_scanEvents,
      optCheck_cons_sortNode, optCheck_cons_optimize, optCheck_execLoop,
      optCheck_execLoop, optCheck_graphFree_final]
  · simp only [run_sortTrace, optimizeCount_append, optimizeCount_scanEvents,
      optimizeCount_execLoop]
    simp [optimizeCount]
  · simp only [run_sortTrace, execRoots_append, execRoots_scanEvents,
      execRoots_execLoop]
    simp [execRoots]
  · simp only [joinSectionTrace, joinSectionBody, List.append_assoc,
      List.cons_append, List.singleton_append, List.nil_append]
    rw [optCheck_cons_graphNew, optCheck_cons_constTable, optCheck_cons_constTable,
      optCheck_scanEvents, optCheck_rightKeyEvents, optCheck_cons_joinNode,
      optCheck_cons_optimize, optCheck_execLoop, optCheck_execLoop,
      optCheck_graphFree_final]
  · simp only [joinSectionTrace, joinSectionBody, optimizeCount_append,
      optimizeCount_scanEvents, optimizeCount_rightKeyEvents,
      optimizeCount_execLoop]
    simp [optimizeCount]
  · simp only [joinSectionTrace, joinSectionBody, execRoots_append,
      execRoots_scanEvents, execRoots_rightKeyEvents, execRoots_execLoop]
    simp [execRoots]

/-- C5: provided the three loaded table handles are distinct live handles
(never aliased by an owned execute result), the `bench_teide` trace tears down
in dependency order: the join graph is freed first, then `y`, `x` and the
group-by table are released — each exactly once, never inside any graph's
teardown and never before the graphs borrowing them were freed (all seven
section graph-frees lie in the prefix, which releases no table) — and
symbol-interning and arena teardown are the very last events of the run. -/
theorem native_teardown_order (d : String) (R : TeideResp)
    (hfresh : tablesFresh R = true) :
    bench_teideTrace d R = bench_teidePre d R
        ++ [Event.graphFree R.jn.g, Event.release R.y, Event.release R.x,
            Event.release R.tbl, Event.symDestroy, Event.arenaDestroyAll] ∧
    releasesOf (bench_teideTrace d R) = sectionReleases R ++ [R.y, R.x, R.tbl] ∧
    (bench_teidePre d R).filter
        (fun e => e == Event.release R.x || e == Event.release R.y
          || e == Event.release R.tbl) = [] ∧
    Event.graphFree R.q1.g ∈ bench_teidePre d R ∧
    Event.graphFree R.q2.g ∈ bench_teidePre d R ∧
    Event.graphFree R.q3.g ∈ bench_teidePre d R ∧
    Event.graphFree R.q5.g ∈ bench_teidePre d R ∧
    Event.graphFree R.q7.g ∈ bench_teidePre d R ∧
    Event.graphFree R.s1.g ∈ bench_teidePre d R ∧
    Event.graphFree R.s6.g ∈ bench_teidePre d R ∧
    List.count R.y (releasesOf (bench_teideTrace d R)) = 1 ∧
    List.count R.x (releasesOf (bench_teideTrace d R)) = 1 ∧
    List.count R.tbl (releasesOf (bench_teideTrace d R)) = 1 := by
  have hfr : (R.x ≠ R.y ∧ R.x ≠ R.tbl ∧ R.y ≠ R.tbl) ∧
      R.x ∉ sectionReleases R ∧ R.y ∉ sectionReleases R ∧
      R.tbl ∉ sectionReleases R := by
    simpa [tablesFresh, and_assoc] using hfresh
  obtain ⟨⟨hxy, hxt, hyt⟩, hcx, hcy, hct⟩ := hfr
  have hpre := releasesOf_bench_teidePre d R
  have hall : releasesOf (bench_teideTrace d R)
      = sectionReleases R ++ [R.y, R.x, R.tbl] := by
    rw [show bench_teideTrace d R = bench_teidePre d R
          ++ [Event.graphFree R.jn.g, Event.release R.y, Event.release R.x,
              Event.release R.tbl, Event.symDestroy, Event.arenaDestroyAll] from rfl,
      releasesOf_append, hpre]
    rfl
  refine ⟨rfl, hall, ?_, ?_, ?_, ?_, ?_, ?_, ?_, ?_, ?_, ?_, ?_⟩
  · rw [List.filter_eq_nil_iff]
    intro a ha hba
    have hmem : ∀ t : Handle, a = Event.release t → t ∈ sectionReleases R := by
      intro t hat
      subst hat
      have h2 : t ∈ releasesOf (bench_teidePre d R) :=
        List.mem_filterMap.mpr ⟨Event.release t, ha, rfl⟩
      rwa [hpre] at h2
    have hba2 : a = Event.release R.x ∨ a = Event.release R.y
        ∨ a = Event.release R.tbl := by
      simpa [or_assoc] using hba
    rcases hba2 with h1 | h1 | h1
    · exact hcx (hmem _ h1)
    · exact hcy (hmem _ h1)
    · exact hct (hmem _ h1)
  · simp [bench_teidePre, graphFree_mem_run_groupbyTrace]
  · simp [bench_teidePre, graphFree_mem_run_groupbyTrace]
  · simp [bench_teidePre, graphFree_mem_run_groupbyTrace]
  · simp [bench_teidePre, graphFree_mem_run_groupbyTrace]
  · simp [bench_teidePre, graphFree_mem_run_groupbyTrace]
  · simp [bench_teidePre, graphFree_mem_run_sortTrace]
  · simp [bench_teidePre, graphFree_mem_run_sortTrace]
  · rw [hall, List.count_append, List.count_eq_zero.mpr hcy]
    simp [List.count_cons, hxy, hyt.symm]
  · rw [hall, List.count_append, List.count_eq_zero.mpr hcx]
    simp [List.count_cons, hxy.symm, hxt.symm]
  · rw [hall, List.count_append, List.count_eq_zero.mpr hct]
    simp [List.count_cons, hyt, hxt]

/-- C5 witness: the teardown-order statement at the concrete response
assignment `teideRespEx`. -/
theorem native_teardown_order_witness :
    bench_teideTrace "" teideRespEx = bench_teidePre "" teideRespEx
        ++ [Event.graphFree teideRespEx.jn.g, Event.release teideRespEx.y,
            Event.release teideRespEx.x, Event.release teideRespEx.tbl,
            Event.symDestroy, Event.arenaDestroyAll] ∧
    releasesOf (bench_teideTrace "" teideRespEx)
      = sectionReleases teideRespEx
          ++ [teideRespEx.y, teideRespEx.x, teideRespEx.tbl] ∧
    (bench_teidePre "" teideRespEx).filter
        (fun e => e == Event.release teideRespEx.x
          || e == Event.release teideRespEx.y
          || e == Event.release teideRespEx.tbl) = [] ∧
    Event.graphFree teideRespEx.q1.g ∈ bench_teidePre "" teideRespEx ∧
    Event.graphFree teideRespEx.q2.g ∈ bench_teidePre "" teideRespEx ∧
    Event.graphFree teideRespEx.q3.g ∈ bench_teidePre "" teideRespEx ∧
    Event.graphFree teideRespEx.q5.g ∈ bench_teidePre "" teideRespEx ∧
    Event.graphFree teideRespEx.q7.g ∈ bench_teidePre "" teideRespEx ∧
    Event.graphFree teideRespEx.s1.g ∈ bench_teidePre "" teideRespEx ∧
    Event.graphFree teideRespEx.s6.g ∈ bench_teidePre "" teideRespEx ∧
    List.count teideRespEx.y (releasesOf (bench_teideTrace "" teideRespEx)) = 1 ∧
    List.count teideRespEx.x (releasesOf (bench_teideTrace "" teideRespEx)) = 1 ∧
    List.count teideRespEx.tbl (releasesOf (bench_teideTrace "" teideRespEx)) = 1 :=
  native_teardown_order "" teideRespEx (by decide)

end TeideBench
